import Mathlib

/-!
Shallow embedding of `src/swanplot/axes.py` (the swanplot figure builder).

Python floats are modelled as rationals (`ℚ`), numpy `uint8` pixels as `Nat`
with explicit `% 256`, and Python exceptions as `Except String`.  A pydantic
model is a Lean structure together with an explicit validator function; the
pydantic behaviour of rejecting an attribute assignment for a field the model
does not declare (`extra="forbid"`) is modelled by a string-keyed setter that
returns an error for unknown field names.
-/

/-- Modelled from the spec: the module `swanplot/cname.py` is not part of the
sources; per the docstrings in `axes.py` its `cname` type admits exactly the
css color names.  This list is the standard css extended color keyword set. -/
def cname : List String :=
  ["aliceblue", "antiquewhite", "aqua", "aquamarine", "azure", "beige",
   "bisque", "black", "blanchedalmond", "blue", "blueviolet", "brown",
   "burlywood", "cadetblue", "chartreuse", "chocolate", "coral",
   "cornflowerblue", "cornsilk", "crimson", "cyan", "darkblue", "darkcyan",
   "darkgoldenrod", "darkgray", "darkgreen", "darkgrey", "darkkhaki",
   "darkmagenta", "darkolivegreen", "darkorange", "darkorchid", "darkred",
   "darksalmon", "darkseagreen", "darkslateblue", "darkslategray",
   "darkslategrey", "darkturquoise", "darkviolet", "deeppink", "deepskyblue",
   "dimgray", "dimgrey", "dodgerblue", "firebrick", "floralwhite",
   "forestgreen", "fuchsia", "gainsboro", "ghostwhite", "gold", "goldenrod",
   "gray", "green", "greenyellow", "grey", "honeydew", "hotpink", "indianred",
   "indigo", "ivory", "khaki", "lavender", "lavenderblush", "lawngreen",
   "lemonchiffon", "lightblue", "lightcoral", "lightcyan",
   "lightgoldenrodyellow", "lightgray", "lightgreen", "lightgrey",
   "lightpink", "lightsalmon", "lightseagreen", "lightskyblue",
   "lightslategray", "lightslategrey", "lightsteelblue", "lightyellow",
   "lime", "limegreen", "linen", "magenta", "maroon", "mediumaquamarine",
   "mediumblue", "mediumorchid", "mediumpurple", "mediumseagreen",
   "mediumslateblue", "mediumspringgreen", "mediumturquoise",
   "mediumvioletred", "midnightblue", "mintcream", "mistyrose", "moccasin",
   "navajowhite", "navy", "oldlace", "olive", "olivedrab", "orange",
   "orangered", "orchid", "palegoldenrod", "palegreen", "paleturquoise",
   "palevioletred", "papayawhip", "peachpuff", "peru", "pink", "plum",
   "powderblue", "purple", "red", "rosybrown", "royalblue", "saddlebrown",
   "salmon", "sandybrown", "seagreen", "seashell", "sienna", "silver",
   "skyblue", "slateblue", "slategray", "slategrey", "snow", "springgreen",
   "steelblue", "tan", "teal", "thistle", "tomato", "turquoise", "violet",
   "wheat", "white", "whitesmoke", "yellow", "yellowgreen"]

/-- Modelled from the spec: `swanplot/cname.py` also exports `pname`, the
matplotlib-style single-letter python color names. -/
def pname : List String := ["b", "g", "r", "c", "m", "y", "k", "w"]

/-- Modelled from the spec: `swanplot/cname.py` exports `pythontocss`, the
translation from single-letter python color names to css color names. -/
def pythontocss (color : String) : String :=
  (([("b", "blue"), ("g", "green"), ("r", "red"), ("c", "cyan"),
     ("m", "magenta"), ("y", "yellow"), ("k", "black"),
     ("w", "white")].lookup color).getD color)

/-- The `DataAxes` type of `axes.py`: an axis may be named `t,x,y,c` or
`0,1,2,3`; every `match` in the source treats the letter and the digit
identically, so the embedding uses one constructor per axis. -/
inductive DataAxes
  | t
  | x
  | y
  | c
deriving DecidableEq

/-- Default of the `colors` field of `ColorScheme` in `axes.py`. -/
def defaultColors : List String := ["black", "white"]

/-- Default of the `positions` field of `ColorScheme` in `axes.py`. -/
def defaultPositions : List ℚ := [0, 1]

/-- The `ColorScheme` pydantic model of `axes.py` (field values only;
validation is `ColorScheme.validate`). -/
structure ColorScheme where
  colors : List String := defaultColors
  positions : List ℚ := defaultPositions
deriving DecidableEq

/-- Pydantic validation of `ColorScheme(colors=..., positions=...)`:
`colors` is a sequence of css color names with `MinLen(2)`; `positions` is a
sequence of floats in `[0,1]` whose length constraint `Len(len(colors))` was
evaluated at class-definition time, where `colors` was still the default list
`["black","white"]` — so it is the constant `Len(2)`.  `annotated_types.Len`
with no `max_length` unpacks to `MinLen(min_length)` alone, so `Len(2)`
bounds the positions length below by `2` and imposes no upper bound. -/
def ColorScheme.validate (colors : List String) (positions : List ℚ) :
    Except String ColorScheme :=
  if colors.length < 2 then
    .error "colors should have at least 2 items"
  else if ¬ colors.all (fun color => cname.contains color) then
    .error "input should be a valid css color name"
  else if positions.length < defaultColors.length then
    .error "positions should have at least 2 items"
  else if ¬ positions.all (fun p => decide (0 ≤ p) && decide (p ≤ 1)) then
    .error "positions should be in the interval from 0 to 1"
  else
    .ok { colors := colors, positions := positions }

/-- The `GraphTypes` literal type of `axes.py` (only value: `histogram`). -/
inductive GraphTypes
  | histogram
deriving DecidableEq

/-- The `Fig` pydantic model of `axes.py` with its field defaults. -/
structure Fig where
  compact : Bool := false
  t_unit : String := ""
  x_unit : String := ""
  y_unit : String := ""
  c_unit : String := ""
  t_axis : Option (List ℚ) := none
  x_axis : Option (List ℚ) := none
  y_axis : Option (List ℚ) := none
  max_intensity : Option ℚ := none
  min_intensity : Option ℚ := none
  x_bins : Option Int := none
  y_bins : Option Int := none
  max_points : Option Int := none
  width : Option Int := none
  height : Option Int := none
  margin : Int := 40
  timesteps : Int := 1
  x_label : String := ""
  y_label : String := ""
  t_label : String := ""
  c_label : String := ""
  loop : Bool := false
deriving DecidableEq

/-- The `axes` pydantic model of `axes.py` with its field defaults. -/
structure axes where
  color_scheme : ColorScheme := {}
  type : Option GraphTypes := none
  data : Option String := none
  options : Fig := {}
deriving DecidableEq

/-- A freshly constructed `axes()` object (all defaults). -/
def axesDefault : axes := {}

/-- The attribute name that each `match axis` arm of `uniform_ticks` and
`custom_ticks` assigns to (`self.options.<name> = input`). -/
def axisFieldName : DataAxes → String
  | .t => "t_axis"
  | .x => "x_axis"
  | .y => "y_axis"
  | .c => "c_axis"

/-- Attribute assignment `setattr(fig, name, ticks)` on the pydantic model
`Fig`.  `Fig` declares `t_axis`, `x_axis` and `y_axis`; pydantic rejects an
assignment to any attribute that is not a declared field (the model forbids
extra fields), raising a `ValueError` — in particular for `c_axis`. -/
def Fig.setAxisAttr (o : Fig) (name : String) (ticks : List ℚ) :
    Except String Fig :=
  if name = "t_axis" then .ok { o with t_axis := some ticks }
  else if name = "x_axis" then .ok { o with x_axis := some ticks }
  else if name = "y_axis" then .ok { o with y_axis := some ticks }
  else .error ("Fig object has no field " ++ name)

/-- Reads the `Fig` field that an axis name selects (helper for stating
theorems; the `c` axis selects no declared field, so the read is `none`). -/
def Fig.getAxisTicks (o : Fig) : DataAxes → Option (List ℚ)
  | .t => o.t_axis
  | .x => o.x_axis
  | .y => o.y_axis
  | .c => none

/-- `numpy.linspace(start, stop, n)` over exact rationals: `n` evenly spaced
samples from `start` to `stop`, both endpoints included (for `n = 1` the
single sample is `start`; for `n = 0` the result is empty). -/
def linspaceList (start stop : ℚ) (n : Nat) : List ℚ :=
  if n = 1 then [start]
  else (List.range n).map
    (fun (i : Nat) => start + (stop - start) * (i : ℚ) / ((n : ℚ) - 1))

/-- `numpy.linspace` with the sample count taken from a Python `int`:
a negative count raises a `ValueError`. -/
def linspace (start stop : ℚ) (num : Int) : Except String (List ℚ) :=
  if num < 0 then .error "number of samples must be nonnegative"
  else .ok (linspaceList start stop num.toNat)

/-- `axes.uniform_ticks` from `axes.py`: builds
`np.linspace(start, end, self.options.timesteps)` and assigns it to the
attribute named by `axis`.  (The source's `timesteps == None` guard can never
fire, `timesteps` being a plain `int` field.) -/
def axes.uniform_ticks (self : axes) (start stop : ℚ) (axis : DataAxes) :
    Except String axes := do
  let input ← linspace start stop self.options.timesteps
  let o ← self.options.setAxisAttr (axisFieldName axis) input
  .ok { self with options := o }

/-- `axes.custom_ticks` from `axes.py`: rejects the tick list when its length
differs from `options.timesteps`, otherwise assigns it to the attribute
named by `axis`. -/
def axes.custom_ticks (self : axes) (input : List ℚ) (axis : DataAxes) :
    Except String axes :=
  if (input.length : Int) ≠ self.options.timesteps then
    .error "the length of provided ticks is not the same as the number of timesteps in your data"
  else do
    let o ← self.options.setAxisAttr (axisFieldName axis) input
    .ok { self with options := o }

/-- `axes.set_unit` from `axes.py`.  Note the source's `c` arm assigns
`self.options.y_unit`, exactly as transcribed here. -/
def axes.set_unit (self : axes) (unit : String) (axis : DataAxes) : axes :=
  match axis with
  | .t => { self with options := { self.options with t_unit := unit } }
  | .x => { self with options := { self.options with x_unit := unit } }
  | .y => { self with options := { self.options with y_unit := unit } }
  | .c => { self with options := { self.options with y_unit := unit } }

/-- `axes.cmap` from `axes.py`: translates python single-letter names to css
in a local `output` list, but then constructs `ColorScheme` from the raw
`colors` argument (the `output` list is discarded by the source). -/
def axes.cmap (self : axes) (colors : List String) (positions : List ℚ) :
    Except String axes :=
  let output := colors.map
    (fun color => if pname.contains color then pythontocss color else color)
  match ColorScheme.validate colors positions with
  | .ok cs =>
      let _ := output
      .ok { self with color_scheme := cs }
  | .error e => .error e

/-- `numpy`-style maximum of a nonempty array (`a.max()`): fold of `max`
seeded with the first element; the empty case (on which numpy raises) is
given the junk value `0` and is never reached by the embedded code. -/
def listMax : List Nat → Nat
  | [] => 0
  | v :: vs => vs.foldl Nat.max v

/-- `numpy`-style minimum of a nonempty array (`a.min()`), seeded with the
first element; the empty case is junk, as in `listMax`. -/
def listMin : List Nat → Nat
  | [] => 0
  | v :: vs => vs.foldl Nat.min v

/-- `PIL.Image.getextrema` on a grayscale image: the pair
`(min pixel, max pixel)`. -/
def getextrema (img : List (List Nat)) : Nat × Nat :=
  (listMin img.flatten, listMax img.flatten)

/-- The standard base64 alphabet. -/
def b64Alphabet : List Char :=
  "ABCDEFGHIJKLMNOPQRSTUVWXYZabcdefghijklmnopqrstuvwxyz0123456789+/".toList

/-- Character of the base64 alphabet at a 6-bit index. -/
def b64Char (i : Nat) : Char := b64Alphabet.getD i (Char.ofNat 65)

/-- RFC 4648 base64 of a byte list, as a character list (with padding). -/
def b64encodeBytes : List Nat → List Char
  | [] => []
  | [a] => [b64Char (a / 4), b64Char (a % 4 * 16), Char.ofNat 61, Char.ofNat 61]
  | [a, b] => [b64Char (a / 4), b64Char (a % 4 * 16 + b / 16),
               b64Char (b % 16 * 4), Char.ofNat 61]
  | a :: b :: c :: rest =>
      b64Char (a / 4) :: b64Char (a % 4 * 16 + b / 16) ::
      b64Char (b % 16 * 4 + c / 64) :: b64Char (c % 64) :: b64encodeBytes rest

/-- `base64.b64encode(bytes).decode("utf-8")`. -/
def b64encode (bytes : List Nat) : String := String.mk (b64encodeBytes bytes)

/-- A 3D numpy array (datacube): its shape `(d0, d1, d2)` and its entries,
frame by frame, row by row. -/
structure Cube where
  d0 : Nat
  d1 : Nat
  d2 : Nat
  data : List (List (List Nat))

/-- Shape well-formedness of a datacube. -/
def Cube.wf (c : Cube) : Prop :=
  c.data.length = c.d0 ∧
  ∀ f ∈ c.data, f.length = c.d1 ∧ ∀ r ∈ f, r.length = c.d2

/-- All entries of a datacube, flattened. -/
def Cube.pixels (c : Cube) : List Nat := c.data.flatten.flatten

/-- A datacube whose entries are already `uint8` values. -/
def Cube.uint8 (c : Cube) : Prop := ∀ p ∈ c.pixels, p < 256

/-- The tail of `axes.hist` after the image encoding: the axis-tick, bin,
size and type updates, in source order.  Note the `t`-axis ticks are
generated while `options.timesteps` still holds its previous value; only
after that is `timesteps` set to `d0`. -/
def histTail (s1 : axes) (d0 d1 d2 : Nat) : Except String axes := do
  let s2 ← if s1.options.t_axis = none
    then s1.uniform_ticks 0 ((d0 : ℚ) - 1) DataAxes.t else .ok s1
  let s2b : axes := { s2 with options := { s2.options with timesteps := (d0 : Int) } }
  let s3 ← if s2b.options.x_axis = none
    then s2b.uniform_ticks 0 (d1 : ℚ) DataAxes.x else .ok s2b
  let s3b : axes := { s3 with options := { s3.options with x_bins := some (d1 : Int) } }
  let s4 ← if s3b.options.y_axis = none
    then s3b.uniform_ticks 0 (d2 : ℚ) DataAxes.y else .ok s3b
  let s4b : axes := { s4 with options := { s4.options with y_bins := some (d2 : Int) } }
  let wVal : Int := if 256 ≤ d1 then (d1 : Int) + 2 * s4b.options.margin
    else 256 + 2 * s4b.options.margin
  let s5 : axes := if s4b.options.width = none
    then { s4b with options := { s4b.options with width := some wVal } }
    else s4b
  let hVal : Int := if 256 ≤ d2 then (d2 : Int) + 2 * s5.options.margin
    else 256 + 2 * s5.options.margin
  let s6 : axes := if s5.options.height = none
    then { s5 with options := { s5.options with height := some hVal } }
    else s5
  .ok { s6 with type := some GraphTypes.histogram }

/-- `axes.hist` from `axes.py`.  The frames are the cube's 2D slices cast to
`uint8` (`% 256`); `tiffEnc` stands for PIL's multi-frame grayscale TIFF
byte encoder, which is external library code and is therefore kept as an
explicit parameter.  `ims[0]` raises `IndexError` on an empty stack. -/
def axes.hist (self : axes) (datacube : Cube)
    (tiffEnc : List (List (List Nat)) → List Nat) : Except String axes :=
  let ims := datacube.data.map
    (fun frame => frame.map (fun row => row.map (fun p => p % 256)))
  match ims with
  | [] => .error "IndexError: list index out of range"
  | _ :: _ =>
    let dataStr := b64encode (tiffEnc ims)
    let extremes := ims.map getextrema
    let allVals := (extremes.map (fun e => [e.1, e.2])).flatten
    let s1 : axes := { self with
      data := some dataStr,
      options := { self.options with
        max_intensity := some ((listMax allVals : ℚ)),
        min_intensity := some ((listMin allVals : ℚ)),
        compact := true } }
    histTail s1 datacube.d0 datacube.d1 datacube.d2

/-- Last index of a character in a character list (`str.rfind`), `-1` when
absent. -/
def lastIdxOf (cs : List Char) (c : Char) : Int :=
  (cs.foldl (fun (acc : Int × Int) ch =>
    (if ch = c then acc.2 else acc.1, acc.2 + 1)) ((-1 : Int), (0 : Int))).1

/-- `os.path.splitext(p)[1]`: the extension starts at the last dot that lies
after the last path separator, provided some earlier character of the
basename is not a dot (leading dots never start an extension). -/
def splitextExt (p : String) : String :=
  let cs := p.toList
  let sepIndex := lastIdxOf cs '/'
  let dotIndex := lastIdxOf cs '.'
  if dotIndex > sepIndex ∧
      ((List.range cs.length).any (fun i =>
        decide (sepIndex < (i : Int)) && decide ((i : Int) < dotIndex) &&
        decide (cs.getD i '.' ≠ '.')) = true) then
    String.mk (cs.drop dotIndex.toNat)
  else ""

/-- A JSON value tree, as produced by `model_dump` plus `json.dumps` (the
textual layer preserves this tree exactly for the value types used here). -/
inductive Json
  | null
  | bool (b : Bool)
  | num (q : ℚ)
  | str (s : String)
  | arr (elems : List Json)
  | obj (fields : List (String × Json))

/-- `model_dump` of a `ColorScheme`. -/
def dumpColorScheme (cs : ColorScheme) : Json :=
  .obj [("colors", .arr (cs.colors.map Json.str)),
        ("positions", .arr (cs.positions.map Json.num))]

/-- Dump of an optional float field. -/
def dumpOptQ : Option ℚ → Json
  | none => .null
  | some q => .num q

/-- Dump of an optional int field. -/
def dumpOptInt : Option Int → Json
  | none => .null
  | some i => .num (i : ℚ)

/-- Dump of an optional tick-list field. -/
def dumpOptAxis : Option (List ℚ) → Json
  | none => .null
  | some l => .arr (l.map Json.num)

/-- `model_dump` of a `Fig`. -/
def dumpFig (f : Fig) : Json :=
  .obj [("compact", .bool f.compact),
        ("t_unit", .str f.t_unit),
        ("x_unit", .str f.x_unit),
        ("y_unit", .str f.y_unit),
        ("c_unit", .str f.c_unit),
        ("t_axis", dumpOptAxis f.t_axis),
        ("x_axis", dumpOptAxis f.x_axis),
        ("y_axis", dumpOptAxis f.y_axis),
        ("max_intensity", dumpOptQ f.max_intensity),
        ("min_intensity", dumpOptQ f.min_intensity),
        ("x_bins", dumpOptInt f.x_bins),
        ("y_bins", dumpOptInt f.y_bins),
        ("max_points", dumpOptInt f.max_points),
        ("width", dumpOptInt f.width),
        ("height", dumpOptInt f.height),
        ("margin", .num (f.margin : ℚ)),
        ("timesteps", .num (f.timesteps : ℚ)),
        ("x_label", .str f.x_label),
        ("y_label", .str f.y_label),
        ("t_label", .str f.t_label),
        ("c_label", .str f.c_label),
        ("loop", .bool f.loop)]

/-- `model_dump` of an `axes` value, as serialized by `savefig`'s json
branch. -/
def dumpAxes (a : axes) : Json :=
  .obj [("color_scheme", dumpColorScheme a.color_scheme),
        ("type", match a.type with
                 | none => .null
                 | some GraphTypes.histogram => .str "histogram"),
        ("data", match a.data with
                 | none => .null
                 | some s => .str s),
        ("options", dumpFig a.options)]

/-- What `savefig` writes into the opened file. -/
inductive FileContent
  | tiffDecoded (b64payload : String)
  | jsonText (indent : Int) (doc : Json)

/-- Observable outcome of a `savefig` call: an exception, a file written
with some content, or a normal return during which no file was opened. -/
inductive SaveOutcome
  | raised (msg : String)
  | written (fname : String) (content : FileContent)
  | noWrite

/-- `axes.savefig` from `axes.py`, transcribed branch by branch.  The two
early `input = ...` assignments of the source are dead (unconditionally
overwritten by `input = ext[1:] if format == None else format`), so only the
early `raise` is kept; `str(format)` is `"None"` when `format` is `None`;
a `format`/`input` value matching neither `"tiff"` nor `"json"` falls
through the final `match` and no file is opened. -/
def axes.savefig (self : axes) (fname : String) (style : String)
    (format : Option String) (force : Bool) : SaveOutcome :=
  let ext := splitextExt fname
  if ext ≠ "" ∧ format = none ∧ (ext.drop 1) ∉ ["json", "tiff"] ∧ ¬ force then
    SaveOutcome.raised "extension provided is not a supported extension"
  else
    let input := match format with
      | none => ext.drop 1
      | some f => f
    let outName := if ext = "" then
        fname ++ "." ++ (match format with | none => "None" | some f => f)
      else fname
    if ¬ force ∧ ext ≠ "." ++ input ∧ ext ≠ "" then
      SaveOutcome.raised "the chosen format does not match the file extension"
    else if input = "tiff" then
      match self.data with
      | none => SaveOutcome.raised "TypeError: argument should be bytes"
      | some d => SaveOutcome.written outName (FileContent.tiffDecoded d)
    else if input = "json" then
      SaveOutcome.written outName
        (FileContent.jsonText (if style = "pretty" then 4 else 0) (dumpAxes self))
    else SaveOutcome.noWrite

/-- Modelled from the spec: decoding a figure document back into the model
(`axes.model_validate(json.loads(...))`, the inverse the spec's round-trip
test requires) is pydantic validation driven by the field declarations of
`axes.py`: each field is parsed by its declared type, a missing key takes
the field default, and an unknown key is rejected (`extra="forbid"`). -/
def parseBool : Json → Except String Bool
  | .bool b => .ok b
  | _ => .error "bool expected"

/-- Pydantic validation of a plain `str` field. -/
def parseStr : Json → Except String String
  | .str s => .ok s
  | _ => .error "string expected"

/-- Pydantic validation of a plain `float` field (exact-rational model). -/
def parseQ : Json → Except String ℚ
  | .num q => .ok q
  | _ => .error "number expected"

/-- Pydantic validation of a plain `int` field. -/
def parseInt : Json → Except String Int
  | .num q => if q.den = 1 then .ok q.num else .error "int expected"
  | _ => .error "int expected"

/-- Pydantic validation of an `X | None` field. -/
def parseOpt (p : Json → Except String α) : Json → Except String (Option α)
  | .null => .ok none
  | j => (p j).map some

/-- Element-wise validation of a JSON array body. -/
def mapExcept (p : Json → Except String α) : List Json → Except String (List α)
  | [] => .ok []
  | j :: rest => do
    let a ← p j
    let l ← mapExcept p rest
    .ok (a :: l)

/-- Pydantic validation of a `Sequence[float]` field. -/
def parseQList : Json → Except String (List ℚ)
  | .arr l => mapExcept parseQ l
  | _ => .error "list expected"

/-- Pydantic validation of a `Sequence[str]`-shaped field body. -/
def parseStrList : Json → Except String (List String)
  | .arr l => mapExcept parseStr l
  | _ => .error "list expected"

/-- Pydantic validation of the `GraphTypes` literal. -/
def parseGraphTypes : Json → Except String GraphTypes
  | .str s => if s = "histogram" then .ok GraphTypes.histogram
              else .error "invalid literal"
  | _ => .error "invalid literal"

/-- First value bound to a key in a JSON object body. -/
def lookupKV : List (String × Json) → String → Option Json
  | [], _ => none
  | (k, v) :: rest, key => if k = key then some v else lookupKV rest key

/-- Validate the field stored under `key`, or take the declared default when
the key is absent. -/
def fieldD (kvs : List (String × Json)) (key : String)
    (p : Json → Except String α) (dflt : α) : Except String α :=
  match lookupKV kvs key with
  | none => .ok dflt
  | some j => p j

/-- The declared field names of `ColorScheme`. -/
def colorSchemeKeys : List String := ["colors", "positions"]

/-- Pydantic validation of a `ColorScheme` document. -/
def parseColorScheme : Json → Except String ColorScheme
  | .obj kvs =>
    if kvs.all (fun kv => colorSchemeKeys.contains kv.1) then do
      let colors ← fieldD kvs "colors" parseStrList defaultColors
      let positions ← fieldD kvs "positions" parseQList defaultPositions
      ColorScheme.validate colors positions
    else .error "extra fields forbidden"
  | _ => .error "dict expected"

/-- The declared field names of `Fig`. -/
def figKeys : List String :=
  ["compact", "t_unit", "x_unit", "y_unit", "c_unit", "t_axis", "x_axis",
   "y_axis", "max_intensity", "min_intensity", "x_bins", "y_bins",
   "max_points", "width", "height", "margin", "timesteps", "x_label",
   "y_label", "t_label", "c_label", "loop"]

/-- Pydantic validation of a `Fig` document. -/
def parseFig : Json → Except String Fig
  | .obj kvs =>
    if kvs.all (fun kv => figKeys.contains kv.1) then do
      let compact ← fieldD kvs "compact" parseBool false
      let t_unit ← fieldD kvs "t_unit" parseStr ""
      let x_unit ← fieldD kvs "x_unit" parseStr ""
      let y_unit ← fieldD kvs "y_unit" parseStr ""
      let c_unit ← fieldD kvs "c_unit" parseStr ""
      let t_axis ← fieldD kvs "t_axis" (parseOpt parseQList) none
      let x_axis ← fieldD kvs "x_axis" (parseOpt parseQList) none
      let y_axis ← fieldD kvs "y_axis" (parseOpt parseQList) none
      let max_intensity ← fieldD kvs "max_intensity" (parseOpt parseQ) none
      let min_intensity ← fieldD kvs "min_intensity" (parseOpt parseQ) none
      let x_bins ← fieldD kvs "x_bins" (parseOpt parseInt) none
      let y_bins ← fieldD kvs "y_bins" (parseOpt parseInt) none
      let max_points ← fieldD kvs "max_points" (parseOpt parseInt) none
      let width ← fieldD kvs "width" (parseOpt parseInt) none
      let height ← fieldD kvs "height" (parseOpt parseInt) none
      let margin ← fieldD kvs "margin" parseInt 40
      let timesteps ← fieldD kvs "timesteps" parseInt 1
      let x_label ← fieldD kvs "x_label" parseStr ""
      let y_label ← fieldD kvs "y_label" parseStr ""
      let t_label ← fieldD kvs "t_label" parseStr ""
      let c_label ← fieldD kvs "c_label" parseStr ""
      let loop ← fieldD kvs "loop" parseBool false
      .ok { compact := compact, t_unit := t_unit, x_unit := x_unit,
            y_unit := y_unit, c_unit := c_unit, t_axis := t_axis,
            x_axis := x_axis, y_axis := y_axis,
            max_intensity := max_intensity, min_intensity := min_intensity,
            x_bins := x_bins, y_bins := y_bins, max_points := max_points,
            width := width, height := height, margin := margin,
            timesteps := timesteps, x_label := x_label, y_label := y_label,
            t_label := t_label, c_label := c_label, loop := loop }
    else .error "extra fields forbidden"
  | _ => .error "dict expected"

/-- The declared field names of `axes`. -/
def axesKeys : List String := ["color_scheme", "type", "data", "options"]

/-- Pydantic validation of an `axes` document. -/
def parseAxes : Json → Except String axes
  | .obj kvs =>
    if kvs.all (fun kv => axesKeys.contains kv.1) then do
      let cs ← fieldD kvs "color_scheme" parseColorScheme {}
      let ty ← fieldD kvs "type" (parseOpt parseGraphTypes) none
      let dt ← fieldD kvs "data" (parseOpt parseStr) none
      let op ← fieldD kvs "options" parseFig {}
      .ok { color_scheme := cs, type := ty, data := dt, options := op }
    else .error "extra fields forbidden"
  | _ => .error "dict expected"

/-- A valid `axes` value: one whose `color_scheme` passes its own pydantic
validation (no other field of the model carries a constraint). -/
def ValidAxes (a : axes) : Prop :=
  ColorScheme.validate a.color_scheme.colors a.color_scheme.positions =
    .ok a.color_scheme

/-- Monad-bind of a successful `Except` computation. -/
theorem exceptBind_ok (a : α) (f : α → Except String β) :
    (Except.ok a >>= f) = f a := rfl

/-- Monad-bind of a failed `Except` computation. -/
theorem exceptBind_error (e : String) (f : α → Except String β) :
    ((Except.error e : Except String α) >>= f) = .error e := rfl

/-- `linspace` succeeds on a nonnegative sample count. -/
theorem linspace_ok (start stop : ℚ) (num : Int) (h : 0 ≤ num) :
    linspace start stop num = .ok (linspaceList start stop num.toNat) := by
  simp [linspace, not_lt.2 h]

/-- `uniform_ticks` on the `t` axis sets `t_axis` and nothing else. -/
theorem uniform_ticks_t (a : axes) (s e : ℚ) (h : 0 ≤ a.options.timesteps) :
    a.uniform_ticks s e DataAxes.t =
      .ok { a with options := { a.options with
        t_axis := some (linspaceList s e a.options.timesteps.toNat) } } := by
  simp [axes.uniform_ticks, linspace_ok _ _ _ h, axisFieldName,
    Fig.setAxisAttr, exceptBind_ok]

/-- `uniform_ticks` on the `x` axis sets `x_axis` and nothing else. -/
theorem uniform_ticks_x (a : axes) (s e : ℚ) (h : 0 ≤ a.options.timesteps) :
    a.uniform_ticks s e DataAxes.x =
      .ok { a with options := { a.options with
        x_axis := some (linspaceList s e a.options.timesteps.toNat) } } := by
  simp [axes.uniform_ticks, linspace_ok _ _ _ h, axisFieldName,
    Fig.setAxisAttr, exceptBind_ok]

/-- `uniform_ticks` on the `y` axis sets `y_axis` and nothing else. -/
theorem uniform_ticks_y (a : axes) (s e : ℚ) (h : 0 ≤ a.options.timesteps) :
    a.uniform_ticks s e DataAxes.y =
      .ok { a with options := { a.options with
        y_axis := some (linspaceList s e a.options.timesteps.toNat) } } := by
  simp [axes.uniform_ticks, linspace_ok _ _ _ h, axisFieldName,
    Fig.setAxisAttr, exceptBind_ok]

/-- `uniform_ticks` on the `c` axis reaches the `c_axis` assignment, which
the `Fig` model rejects. -/
theorem uniform_ticks_c (a : axes) (s e : ℚ) (h : 0 ≤ a.options.timesteps) :
    a.uniform_ticks s e DataAxes.c =
      .error "Fig object has no field c_axis" := by
  simp [axes.uniform_ticks, linspace_ok _ _ _ h, axisFieldName,
    Fig.setAxisAttr, exceptBind_ok, exceptBind_error]

/-- `linspaceList` always returns the requested number of samples. -/
theorem linspaceList_length (s e : ℚ) (n : Nat) :
    (linspaceList s e n).length = n := by
  unfold linspaceList
  split
  · simp_all
  · rw [List.length_map, List.length_range]

/-- The first `linspaceList` sample is `start`. -/
theorem linspaceList_head (s e : ℚ) (n : Nat) (h : 0 < n) :
    (linspaceList s e n).head? = some s := by
  unfold linspaceList
  split
  · rfl
  · cases n with
    | zero => omega
    | succ m =>
      rw [List.range_succ_eq_map]
      simp

/-- With at least two samples, the last `linspaceList` sample is `stop`. -/
theorem linspaceList_last (s e : ℚ) (n : Nat) (h : 2 ≤ n) :
    (linspaceList s e n).getLast? = some e := by
  have hne : ((n : ℚ)) - 1 ≠ 0 := by
    have h2 : (2 : ℚ) ≤ (n : ℚ) := by exact_mod_cast h
    intro hc
    nlinarith
  unfold linspaceList
  rw [if_neg (by omega)]
  rw [List.getLast?_eq_getElem?]
  simp only [List.length_map, List.length_range]
  rw [List.getElem?_map]
  rw [List.getElem?_range (by omega)]
  simp only [Option.map_some']
  congr 1
  rw [Nat.cast_sub (by omega)]
  push_cast
  field_simp

/-- Consecutive `linspaceList` samples differ by the constant step
`(stop - start) / (n - 1)`: the samples are evenly spaced. -/
theorem linspaceList_spacing (s e : ℚ) (n : Nat) (h : 2 ≤ n)
    (i : Nat) (hi : i + 1 < n) :
    (linspaceList s e n).getD (i + 1) 0 - (linspaceList s e n).getD i 0 =
      (e - s) / ((n : ℚ) - 1) := by
  have hne : ((n : ℚ)) - 1 ≠ 0 := by
    have h2 : (2 : ℚ) ≤ (n : ℚ) := by exact_mod_cast h
    intro hc
    nlinarith
  unfold linspaceList
  rw [if_neg (by omega)]
  rw [List.getD_eq_getElem?_getD, List.getD_eq_getElem?_getD]
  rw [List.getElem?_map, List.getElem?_map]
  rw [List.getElem?_range (by omega), List.getElem?_range (by omega)]
  simp only [Option.map_some', Option.getD_some]
  push_cast
  field_simp
  ring

/-- An `axes` whose recorded `timesteps` is `2` (all else default). -/
def axesTS2 : axes := { options := { timesteps := 2 } }

/-- C3 counterexample: on a fresh `axes` the recorded `timesteps` is `1`, so
`uniform_ticks(start=0, end=5, axis="t")` stores the single tick `[0]` —
its last element is `0`, not the requested end `5`, refuting the claim that
the stored ticks always end at `end`. -/
theorem c3_counterexample :
    (axesDefault.uniform_ticks 0 5 DataAxes.t).map (fun a => a.options.t_axis) =
      .ok (some [0]) ∧
    ¬ (([(0 : ℚ)] : List ℚ).getLast? = some 5) := ⟨rfl, by decide⟩

/-- C3 (amended): for every `start`, `end` and settable axis (`t`, `x` or
`y`; the `c` arm raises, see C8), when the recorded `options.timesteps` is
at least `2`, `uniform_ticks` stores in the named axis field exactly
`timesteps` evenly spaced values whose first element is `start` and whose
last element is `end`, both endpoints included. -/
theorem c3_uniform_ticks_amended (a : axes) (start stop : ℚ) (axis : DataAxes)
    (hax : axis ≠ DataAxes.c) (hts : 2 ≤ a.options.timesteps) :
    ∃ a2 l, a.uniform_ticks start stop axis = .ok a2 ∧
      a2.options.getAxisTicks axis = some l ∧
      (l.length : Int) = a.options.timesteps ∧
      l.head? = some start ∧ l.getLast? = some stop ∧
      (∀ i : Nat, i + 1 < l.length →
        l.getD (i + 1) 0 - l.getD i 0 = (stop - start) / ((l.length : ℚ) - 1)) := by
  have h0 : 0 ≤ a.options.timesteps := by omega
  have hn2 : 2 ≤ a.options.timesteps.toNat := by omega
  cases axis with
  | c => exact absurd rfl hax
  | t =>
      refine ⟨_, linspaceList start stop a.options.timesteps.toNat,
        uniform_ticks_t a start stop h0, rfl, ?_, ?_, ?_, ?_⟩
      · rw [linspaceList_length]; omega
      · exact linspaceList_head _ _ _ (by omega)
      · exact linspaceList_last _ _ _ hn2
      · intro i hi
        rw [linspaceList_length] at hi ⊢
        exact linspaceList_spacing start stop _ hn2 i hi
  | x =>
      refine ⟨_, linspaceList start stop a.options.timesteps.toNat,
        uniform_ticks_x a start stop h0, rfl, ?_, ?_, ?_, ?_⟩
      · rw [linspaceList_length]; omega
      · exact linspaceList_head _ _ _ (by omega)
      · exact linspaceList_last _ _ _ hn2
      · intro i hi
        rw [linspaceList_length] at hi ⊢
        exact linspaceList_spacing start stop _ hn2 i hi
  | y =>
      refine ⟨_, linspaceList start stop a.options.timesteps.toNat,
        uniform_ticks_y a start stop h0, rfl, ?_, ?_, ?_, ?_⟩
      · rw [linspaceList_length]; omega
      · exact linspaceList_head _ _ _ (by omega)
      · exact linspaceList_last _ _ _ hn2
      · intro i hi
        rw [linspaceList_length] at hi ⊢
        exact linspaceList_spacing start stop _ hn2 i hi

/-- C3 witness: with `timesteps = 2` recorded, `uniform_ticks 0 5 t` stores
two evenly spaced ticks running from `0` to `5`. -/
theorem c3_uniform_ticks_witness :
    ∃ a2 l, axesTS2.uniform_ticks 0 5 DataAxes.t = .ok a2 ∧
      a2.options.getAxisTicks DataAxes.t = some l ∧
      (l.length : Int) = axesTS2.options.timesteps ∧
      l.head? = some 0 ∧ l.getLast? = some 5 ∧
      (∀ i : Nat, i + 1 < l.length →
        l.getD (i + 1) 0 - l.getD i 0 = (5 - 0) / ((l.length : ℚ) - 1)) :=
  c3_uniform_ticks_amended axesTS2 0 5 DataAxes.t (by decide) (by decide)

/-- C4: for every tick list and settable axis (`t`, `x` or `y`; the `c` arm
raises regardless, see C8), `custom_ticks` stores the list in the named
axis field exactly when its length equals the recorded `options.timesteps`;
on a length mismatch it raises and (the exception aborting the method
before any assignment) the axis field is left unchanged. -/
theorem c4_custom_ticks_length_check (a : axes) (input : List ℚ)
    (axis : DataAxes) (hax : axis ≠ DataAxes.c) :
    ((input.length : Int) = a.options.timesteps →
      ∃ a2, a.custom_ticks input axis = .ok a2 ∧
        a2.options.getAxisTicks axis = some input) ∧
    ((input.length : Int) ≠ a.options.timesteps →
      ∃ msg, a.custom_ticks input axis = .error msg) := by
  constructor
  · intro h
    cases axis with
    | c => exact absurd rfl hax
    | t =>
        refine ⟨{ a with options := { a.options with t_axis := some input } },
          ?_, rfl⟩
        simp [axes.custom_ticks, h, axisFieldName, Fig.setAxisAttr, exceptBind_ok]
    | x =>
        refine ⟨{ a with options := { a.options with x_axis := some input } },
          ?_, rfl⟩
        simp [axes.custom_ticks, h, axisFieldName, Fig.setAxisAttr, exceptBind_ok]
    | y =>
        refine ⟨{ a with options := { a.options with y_axis := some input } },
          ?_, rfl⟩
        simp [axes.custom_ticks, h, axisFieldName, Fig.setAxisAttr, exceptBind_ok]
  · intro h
    refine ⟨"the length of provided ticks is not the same as the number of timesteps in your data", ?_⟩
    simp [axes.custom_ticks, h]

/-- C4 witness: on a fresh `axes` (`timesteps = 1`) a one-element tick list
is stored on the `t` axis, and a two-element list is rejected. -/
theorem c4_custom_ticks_witness :
    (∃ a2, axesDefault.custom_ticks [3] DataAxes.t = .ok a2 ∧
      a2.options.getAxisTicks DataAxes.t = some [3]) ∧
    (∃ msg, axesDefault.custom_ticks [3, 4] DataAxes.t = .error msg) :=
  ⟨(c4_custom_ticks_length_check axesDefault [3] DataAxes.t (by decide)).1
      (by decide),
   (c4_custom_ticks_length_check axesDefault [3, 4] DataAxes.t (by decide)).2
      (by decide)⟩

/-- C8: both tick setters, called on axis `c` (equivalently `3`), raise a
validation error instead of recording c-axis ticks — the `Fig` model has no
`c_axis` field and rejects the attribute assignment — even when the tick
list is well-formed (`custom_ticks` is given a list of matching length). -/
theorem c8_c_axis_rejected (a : axes) (start stop : ℚ) (input : List ℚ)
    (hts : 0 ≤ a.options.timesteps)
    (hlen : (input.length : Int) = a.options.timesteps) :
    a.uniform_ticks start stop DataAxes.c =
      .error "Fig object has no field c_axis" ∧
    a.custom_ticks input DataAxes.c =
      .error "Fig object has no field c_axis" := by
  refine ⟨uniform_ticks_c a start stop hts, ?_⟩
  simp [axes.custom_ticks, hlen, axisFieldName, Fig.setAxisAttr, exceptBind_error]

/-- C8 witness: on a fresh `axes`, both tick setters raise for axis `c`
even with a length-matching tick list. -/
theorem c8_c_axis_witness :
    axesDefault.uniform_ticks 0 1 DataAxes.c =
      .error "Fig object has no field c_axis" ∧
    axesDefault.custom_ticks [3] DataAxes.c =
      .error "Fig object has no field c_axis" :=
  c8_c_axis_rejected axesDefault 0 1 [3] (by decide) (by decide)

/-- A `2 × 1 × 1` datacube: two timesteps of a single pixel. -/
def cube211 : Cube := ⟨2, 1, 1, [[[0]], [[1]]]⟩

/-- A trivial stand-in for the external TIFF byte encoder, used to
instantiate `hist` at concrete inputs. -/
def zeroEnc : List (List (List Nat)) → List Nat := fun _ => []

/-- C1 at the failing input: on a fresh `axes`, `hist` of a `2 × 1 × 1`
cube records `x_bins = 1`, `y_bins = 1` and `timesteps = 2` as claimed, but
the `t` axis receives the single tick `[0]` — `uniform_ticks` for `t` runs
while `options.timesteps` still holds the default `1`, one line before
`timesteps` is set to `2` — so the stored `t` ticks are not uniform ticks
spanning `[0, dimension_size - 1] = [0, 1]` (their last element is not
`1`). -/
theorem c1_hist_t_axis_stale :
    (axesDefault.hist cube211 zeroEnc).map
      (fun a => (a.options.t_axis, a.options.timesteps, a.options.x_bins,
                 a.options.y_bins)) = .ok (some [0], 2, some 1, some 1) ∧
    ¬ (([(0 : ℚ)] : List ℚ).getLast? = some 1) := ⟨rfl, by decide⟩

/-- C2 at the failing input: `savefig("out")` with no format on a bare
filename does not default the format to json — the final
`input = ext[1:] if format == None else format` overwrites the earlier
`input = "json"` with the empty string and `fname + "." + str(format)`
appends `".None"`, so the dispatch matches neither `"tiff"` nor `"json"`
and no file is written; with an explicit `format="json"` the claimed
behaviour (append the format, write the document) does occur. -/
theorem c2_savefig_bare_default :
    axesDefault.savefig "out" "compact" none false = SaveOutcome.noWrite ∧
    axesDefault.savefig "out" "compact" (some "json") false =
      SaveOutcome.written "out.json"
        (FileContent.jsonText 0 (dumpAxes axesDefault)) := ⟨rfl, rfl⟩

/-- C7 at the failing input: `set_unit(unit, "c")` writes `y_unit` and
leaves `c_unit` untouched (the source's `c` arm assigns
`self.options.y_unit`), while the `t`, `x` and `y` axes do receive their
own unit fields as claimed. -/
theorem c7_set_unit_c_divergence :
    (axesDefault.set_unit "s" DataAxes.c).options.y_unit = "s" ∧
    (axesDefault.set_unit "s" DataAxes.c).options.c_unit = "" ∧
    (axesDefault.set_unit "s" DataAxes.t).options.t_unit = "s" ∧
    (axesDefault.set_unit "s" DataAxes.x).options.x_unit = "s" ∧
    (axesDefault.set_unit "s" DataAxes.y).options.y_unit = "s" :=
  ⟨rfl, rfl, rfl, rfl, rfl⟩

/-- C9: whenever the colors passed to `cmap` contain a python single-letter
color name, `cmap` raises a validation error: the css translation it
computes is discarded and `ColorScheme` is validated against the raw
colors, whose element type admits only css color names — and no
single-letter python name is a css color name. -/
theorem c9_cmap_pname_rejected (a : axes) (colors : List String)
    (positions : List ℚ) (h : ∃ c ∈ colors, c ∈ pname) :
    ∃ msg, a.cmap colors positions = .error msg := by
  obtain ⟨c0, hc0, hp⟩ := h
  have hdisj : ∀ c ∈ pname, c ∉ cname := by decide
  by_cases hl : colors.length < 2
  · refine ⟨"colors should have at least 2 items", ?_⟩
    simp [axes.cmap, ColorScheme.validate, hl]
  · refine ⟨"input should be a valid css color name", ?_⟩
    simp [axes.cmap, ColorScheme.validate, hl]
    rw [if_pos ⟨c0, hc0, hdisj c0 hp⟩]

/-- C9 witness: `cmap(["b", "white"], [0, 1])` raises even though `"b"` is
an admissible member of `cmap`'s declared input type. -/
theorem c9_cmap_witness :
    ∃ msg, axesDefault.cmap ["b", "white"] [0, 1] = .error msg :=
  c9_cmap_pname_rejected axesDefault ["b", "white"] [0, 1]
    ⟨"b", by decide, by decide⟩

/-- C10 counterexample: a three-color scheme with three matching positions
passes validation — `annotated_types.Len(2)` carries no `max_length`, hence
no upper bound — and the validated value has three positions, not two,
refuting both halves of the claim. -/
theorem c10_counterexample :
    ColorScheme.validate ["red", "green", "blue"] [0, 1, 1] =
      .ok (ColorScheme.mk ["red", "green", "blue"] [0, 1, 1]) ∧
    ¬ ((ColorScheme.mk ["red", "green", "blue"] [0, 1, 1]).positions.length
        = 2) :=
  ⟨rfl, by decide⟩

/-- C10 (amended): every `ColorScheme` that passes validation has at least
two positions — the `Len(len(colors))` constraint was frozen at the length
of the default colors list (`2`), and `annotated_types.Len` without a
`max_length` unpacks to a minimum bound only — so a scheme with more than
two colors and a matching number of positions validates successfully. -/
theorem c10_positions_min_two :
    (∀ colors positions cs,
      ColorScheme.validate colors positions = .ok cs →
      2 ≤ cs.positions.length) ∧
    (∃ cs, ColorScheme.validate ["orange", "purple", "pink"] [0, 0, 1] =
      .ok cs) := by
  constructor
  · intro colors positions cs h
    unfold ColorScheme.validate at h
    split at h
    · exact absurd h (by simp)
    · split at h
      · exact absurd h (by simp)
      · split at h
        · exact absurd h (by simp)
        · split at h
          · exact absurd h (by simp)
          · rename_i h1 h2 h3 h4
            obtain rfl : ColorScheme.mk colors positions = cs :=
              by exact Except.ok.inj h
            simp only [defaultColors, List.length_cons, List.length_nil,
              not_lt] at h3
            exact h3
  · exact ⟨ColorScheme.mk ["orange", "purple", "pink"] [0, 0, 1], rfl⟩

/-- C10 witness: the default two-color scheme validates, and the validated
value carries at least two positions. -/
theorem c10_positions_witness :
    2 ≤ (ColorScheme.mk ["black", "white"] [0, 1]).positions.length :=
  c10_positions_min_two.1 ["black", "white"] [0, 1]
    (ColorScheme.mk ["black", "white"] [0, 1]) rfl

/-- Fold of `Nat.max` dominates its seed. -/
theorem foldl_max_init (l : List Nat) (a : Nat) : a ≤ l.foldl Nat.max a := by
  induction l generalizing a with
  | nil => simp
  | cons w ws ih =>
      calc a ≤ Nat.max a w := Nat.le_max_left a w
      _ ≤ ws.foldl Nat.max (Nat.max a w) := ih _

/-- Fold of `Nat.max` dominates every list element. -/
theorem foldl_max_le (l : List Nat) (a : Nat) :
    ∀ x ∈ l, x ≤ l.foldl Nat.max a := by
  induction l generalizing a with
  | nil => simp
  | cons w ws ih =>
      intro x hx
      rcases List.mem_cons.mp hx with rfl | hx2
      · calc x ≤ Nat.max a x := Nat.le_max_right a x
        _ ≤ ws.foldl Nat.max (Nat.max a x) := foldl_max_init ws _
      · exact ih _ x hx2

/-- Fold of `Nat.max` is the seed or a list element. -/
theorem foldl_max_cases (l : List Nat) (a : Nat) :
    l.foldl Nat.max a = a ∨ l.foldl Nat.max a ∈ l := by
  induction l generalizing a with
  | nil => simp
  | cons w ws ih =>
      rcases ih (Nat.max a w) with h | h
      · rcases Nat.le_total a w with hab | hab
        · right; simp only [List.foldl_cons]
          rw [h]
          have hw : Nat.max a w = w := Nat.max_eq_right hab
          rw [hw]; exact List.mem_cons_self _ _
        · left; simp only [List.foldl_cons]
          rw [h]; exact Nat.max_eq_left hab
      · right; exact List.mem_cons_of_mem _ h

/-- Fold of `Nat.min` is below its seed. -/
theorem foldl_min_init (l : List Nat) (a : Nat) : l.foldl Nat.min a ≤ a := by
  induction l generalizing a with
  | nil => simp
  | cons w ws ih =>
      calc ws.foldl Nat.min (Nat.min a w) ≤ Nat.min a w := ih _
      _ ≤ a := Nat.min_le_left a w

/-- Fold of `Nat.min` is below every list element. -/
theorem foldl_min_le (l : List Nat) (a : Nat) :
    ∀ x ∈ l, l.foldl Nat.min a ≤ x := by
  induction l generalizing a with
  | nil => simp
  | cons w ws ih =>
      intro x hx
      rcases List.mem_cons.mp hx with rfl | hx2
      · calc ws.foldl Nat.min (Nat.min a x) ≤ Nat.min a x := foldl_min_init ws _
        _ ≤ x := Nat.min_le_right a x
      · exact ih _ x hx2

/-- Fold of `Nat.min` is the seed or a list element. -/
theorem foldl_min_cases (l : List Nat) (a : Nat) :
    l.foldl Nat.min a = a ∨ l.foldl Nat.min a ∈ l := by
  induction l generalizing a with
  | nil => simp
  | cons w ws ih =>
      rcases ih (Nat.min a w) with h | h
      · rcases Nat.le_total a w with hab | hab
        · left; simp only [List.foldl_cons]
          rw [h]; exact Nat.min_eq_left hab
        · right; simp only [List.foldl_cons]
          rw [h]
          have hw : Nat.min a w = w := Nat.min_eq_right hab
          rw [hw]; exact List.mem_cons_self _ _
      · right; exact List.mem_cons_of_mem _ h

/-- `listMax` dominates every element. -/
theorem le_listMax {l : List Nat} {x : Nat} (hx : x ∈ l) : x ≤ listMax l := by
  cases l with
  | nil => simp at hx
  | cons v vs =>
      rcases List.mem_cons.mp hx with rfl | hx2
      · exact foldl_max_init vs x
      · exact foldl_max_le vs v x hx2

/-- On a nonempty list, `listMax` is attained. -/
theorem listMax_mem {l : List Nat} (h : l ≠ []) : listMax l ∈ l := by
  cases l with
  | nil => exact absurd rfl h
  | cons v vs =>
      rcases foldl_max_cases vs v with h2 | h2
      · rw [listMax, h2]; exact List.mem_cons_self _ _
      · exact List.mem_cons_of_mem _ h2

/-- `listMin` is below every element. -/
theorem listMin_le {l : List Nat} {x : Nat} (hx : x ∈ l) : listMin l ≤ x := by
  cases l with
  | nil => simp at hx
  | cons v vs =>
      rcases List.mem_cons.mp hx with rfl | hx2
      · exact foldl_min_init vs x
      · exact foldl_min_le vs v x hx2

/-- On a nonempty list, `listMin` is attained. -/
theorem listMin_mem {l : List Nat} (h : l ≠ []) : listMin l ∈ l := by
  cases l with
  | nil => exact absurd rfl h
  | cons v vs =>
      rcases foldl_min_cases vs v with h2 | h2
      · rw [listMin, h2]; exact List.mem_cons_self _ _
      · exact List.mem_cons_of_mem _ h2

/-- Membership in the flattened per-frame extrema list of `hist`. -/
theorem mem_allVals {ims : List (List (List Nat))} {v : Nat} :
    v ∈ ((ims.map getextrema).map (fun e => [e.1, e.2])).flatten ↔
    ∃ f ∈ ims, v = listMin f.flatten ∨ v = listMax f.flatten := by
  simp [List.mem_flatten, getextrema]

/-- Membership in a doubly flattened list of frames. -/
theorem mem_pixels {ims : List (List (List Nat))} {p : Nat} :
    p ∈ ims.flatten.flatten ↔ ∃ f ∈ ims, p ∈ f.flatten := by
  constructor
  · intro h
    obtain ⟨row, hrow, hp⟩ := List.mem_flatten.mp h
    obtain ⟨f, hf, hrf⟩ := List.mem_flatten.mp hrow
    exact ⟨f, hf, List.mem_flatten.mpr ⟨row, hrf, hp⟩⟩
  · rintro ⟨f, hf, hp⟩
    obtain ⟨row, hrf, hp2⟩ := List.mem_flatten.mp hp
    exact List.mem_flatten.mpr ⟨row, List.mem_flatten.mpr ⟨f, hf, hrf⟩, hp2⟩

/-- The maximum (resp. minimum) over the per-frame `getextrema` pairs is
the maximum (resp. minimum) over all pixels of the stack, provided the
stack and each frame are nonempty. -/
theorem extrema_eq_pixels (ims : List (List (List Nat))) (hne : ims ≠ [])
    (hfr : ∀ f ∈ ims, f.flatten ≠ []) :
    listMax ((ims.map getextrema).map (fun e => [e.1, e.2])).flatten =
      listMax ims.flatten.flatten ∧
    listMin ((ims.map getextrema).map (fun e => [e.1, e.2])).flatten =
      listMin ims.flatten.flatten := by
  obtain ⟨f0, hf0⟩ := List.exists_mem_of_ne_nil ims hne
  have hAne : ((ims.map getextrema).map (fun e => [e.1, e.2])).flatten ≠ [] :=
    List.ne_nil_of_mem (mem_allVals.mpr ⟨f0, hf0, Or.inl rfl⟩)
  obtain ⟨p0, hp0⟩ := List.exists_mem_of_ne_nil f0.flatten (hfr f0 hf0)
  have hPne : ims.flatten.flatten ≠ [] :=
    List.ne_nil_of_mem (mem_pixels.mpr ⟨f0, hf0, hp0⟩)
  constructor
  · apply Nat.le_antisymm
    · obtain ⟨f, hf, hv⟩ := mem_allVals.mp (listMax_mem hAne)
      have hmem : listMax ((ims.map getextrema).map
          (fun e => [e.1, e.2])).flatten ∈ f.flatten := by
        rcases hv with h | h
        · rw [h]; exact listMin_mem (hfr f hf)
        · rw [h]; exact listMax_mem (hfr f hf)
      exact le_listMax (mem_pixels.mpr ⟨f, hf, hmem⟩)
    · obtain ⟨f, hf, hp⟩ := mem_pixels.mp (listMax_mem hPne)
      calc listMax ims.flatten.flatten ≤ listMax f.flatten := le_listMax hp
      _ ≤ _ := le_listMax (mem_allVals.mpr ⟨f, hf, Or.inr rfl⟩)
  · apply Nat.le_antisymm
    · obtain ⟨f, hf, hp⟩ := mem_pixels.mp (listMin_mem hPne)
      calc listMin ((ims.map getextrema).map (fun e => [e.1, e.2])).flatten ≤
          listMin f.flatten := listMin_le (mem_allVals.mpr ⟨f, hf, Or.inl rfl⟩)
      _ ≤ listMin ims.flatten.flatten := listMin_le hp
    · obtain ⟨f, hf, hv⟩ := mem_allVals.mp (listMin_mem hAne)
      have hmem : listMin ((ims.map getextrema).map
          (fun e => [e.1, e.2])).flatten ∈ f.flatten := by
        rcases hv with h | h
        · rw [h]; exact listMin_mem (hfr f hf)
        · rw [h]; exact listMax_mem (hfr f hf)
      exact listMin_le (mem_pixels.mpr ⟨f, hf, hmem⟩)

/-- The tick/bin/size tail of `hist` always succeeds when the recorded
timestep count is nonnegative, and never changes the already stored image
data or intensity extremes. -/
theorem histTail_ok (s : axes) (d0 d1 d2 : Nat)
    (h : 0 ≤ s.options.timesteps) :
    ∃ s2, histTail s d0 d1 d2 = .ok s2 ∧ s2.data = s.data ∧
      s2.options.max_intensity = s.options.max_intensity ∧
      s2.options.min_intensity = s.options.min_intensity := by
  by_cases h1 : s.options.t_axis = none <;>
  by_cases h2 : s.options.x_axis = none <;>
  by_cases h3 : s.options.y_axis = none <;>
  by_cases h4 : s.options.width = none <;>
  by_cases h5 : s.options.height = none <;>
  simp [histTail, h1, h2, h3, h4, h5, uniform_ticks_t, uniform_ticks_x,
    uniform_ticks_y, exceptBind_ok, h, Int.natCast_nonneg]

/-- A map that fixes every element of a list is the identity on it. -/
theorem map_id_of_mem {α : Type} {l : List α} {f : α → α}
    (h : ∀ a ∈ l, f a = a) : l.map f = l := by
  induction l with
  | nil => rfl
  | cons x xs ih =>
      simp only [List.map_cons]
      rw [h x (List.mem_cons_self _ _),
        ih (fun a ha => h a (List.mem_cons_of_mem _ ha))]

/-- On a `uint8` datacube the `astype(np.uint8)` cast (`% 256`) is the
identity. -/
theorem frames_mod_id (c : Cube) (h8 : c.uint8) :
    c.data.map (fun frame => frame.map (fun row => row.map (fun p => p % 256))) =
      c.data := by
  apply map_id_of_mem
  intro fr hfr
  apply map_id_of_mem
  intro row hrow
  apply map_id_of_mem
  intro p hp
  apply Nat.mod_eq_of_lt
  exact h8 p (mem_pixels.mpr ⟨fr, hfr, List.mem_flatten.mpr ⟨row, hrow, hp⟩⟩)

/-- C6: on every well-formed, nonempty datacube of `uint8` values, `hist`
records `max_intensity` as the maximum pixel value and `min_intensity` as
the minimum pixel value over all frames of the encoded stack, and stores in
`data` the base64 encoding of the multi-frame grayscale TIFF built from the
stack (the TIFF byte encoder itself is PIL library code, kept as the
parameter `tiffEnc`; on a `uint8` cube the encoded stack is the cube's own
frame list). -/
theorem c6_hist_intensity (tiffEnc : List (List (List Nat)) → List Nat)
    (c : Cube) (a : axes) (hwf : c.wf) (h0 : 0 < c.d0) (h1 : 0 < c.d1)
    (h2 : 0 < c.d2) (h8 : c.uint8) (hts : 0 ≤ a.options.timesteps) :
    ∃ a2, a.hist c tiffEnc = .ok a2 ∧
      a2.options.max_intensity = some ((listMax c.pixels : ℚ)) ∧
      a2.options.min_intensity = some ((listMin c.pixels : ℚ)) ∧
      a2.data = some (b64encode (tiffEnc c.data)) := by
  obtain ⟨hlen, hdim⟩ := hwf
  have hne : c.data ≠ [] := by
    intro hcnil
    rw [hcnil] at hlen
    simp at hlen
    omega
  have hfr : ∀ f ∈ c.data, f.flatten ≠ [] := by
    intro f hf
    obtain ⟨hfl, hrow⟩ := hdim f hf
    cases f with
    | nil => simp at hfl; omega
    | cons r rs =>
        have hr : r.length = c.d2 := hrow r (List.mem_cons_self _ _)
        cases r with
        | nil => simp at hr; omega
        | cons p ps =>
            apply List.ne_nil_of_mem (a := p)
            simp
  have hext := extrema_eq_pixels c.data hne hfr
  simp only [Cube.pixels]
  unfold axes.hist
  rw [frames_mod_id c h8]
  rcases hdata : c.data with _ | ⟨f, fs⟩
  · exact absurd hdata hne
  · rw [hdata] at hext
    dsimp only
    obtain ⟨a2, hrun, hd, hmx, hmn⟩ :=
      histTail_ok { a with
        data := some (b64encode (tiffEnc (f :: fs))),
        options := { a.options with
          max_intensity := some ((listMax ((((f :: fs).map getextrema).map
            (fun e => [e.1, e.2])).flatten) : ℚ)),
          min_intensity := some ((listMin ((((f :: fs).map getextrema).map
            (fun e => [e.1, e.2])).flatten) : ℚ)),
          compact := true } } c.d0 c.d1 c.d2 hts
    refine ⟨a2, ?_, ?_, ?_, ?_⟩
    · exact hrun
    · rw [hmx]
      rw [hext.1]
    · rw [hmn]
      rw [hext.2]
    · rw [hd]

/-- A `1 × 1 × 1` datacube holding the single pixel value `5`. -/
def cube111 : Cube := ⟨1, 1, 1, [[[5]]]⟩

/-- C6 witness: on the one-pixel cube both intensity extremes are `5` and
the stored data is the base64 of the (stand-in) encoder's output. -/
theorem c6_hist_witness :
    ∃ a2, axesDefault.hist cube111 zeroEnc = .ok a2 ∧
      a2.options.max_intensity = some ((listMax cube111.pixels : ℚ)) ∧
      a2.options.min_intensity = some ((listMin cube111.pixels : ℚ)) ∧
      a2.data = some (b64encode (zeroEnc cube111.data)) :=
  c6_hist_intensity zeroEnc cube111 axesDefault
    (by unfold Cube.wf; decide) (by decide) (by decide) (by decide)
    (by unfold Cube.uint8; decide) (by decide)

/-- String elements of a dumped string list parse back unchanged. -/
theorem mapExcept_str (l : List String) :
    mapExcept parseStr (l.map Json.str) = .ok l := by
  induction l with
  | nil => rfl
  | cons x xs ih => simp [mapExcept, parseStr, ih, exceptBind_ok]

/-- Number elements of a dumped float list parse back unchanged. -/
theorem mapExcept_num (l : List ℚ) :
    mapExcept parseQ (l.map Json.num) = .ok l := by
  induction l with
  | nil => rfl
  | cons x xs ih => simp [mapExcept, parseQ, ih, exceptBind_ok]

/-- A dumped `Sequence[str]` field round-trips. -/
theorem parseStrList_dump (l : List String) :
    parseStrList (.arr (l.map Json.str)) = .ok l := by
  simp [parseStrList, mapExcept_str]

/-- A dumped `Sequence[float]` field round-trips. -/
theorem parseQList_dump (l : List ℚ) :
    parseQList (.arr (l.map Json.num)) = .ok l := by
  simp [parseQList, mapExcept_num]

/-- A dumped `int` field round-trips. -/
theorem parseInt_dump (i : Int) : parseInt (.num (i : ℚ)) = .ok i := by
  simp [parseInt]

/-- Functorial map of a successful `Except` computation. -/
theorem exceptMap_ok (a : α) (f : α → β) :
    Except.map f (Except.ok a : Except String α) = .ok (f a) := rfl

/-- A dumped `float | None` field round-trips. -/
theorem parseOptQ_dump (o : Option ℚ) :
    parseOpt parseQ (dumpOptQ o) = .ok o := by
  cases o <;> rfl

/-- A dumped `int | None` field round-trips. -/
theorem parseOptInt_dump (o : Option Int) :
    parseOpt parseInt (dumpOptInt o) = .ok o := by
  cases o with
  | none => rfl
  | some i => simp [dumpOptInt, parseOpt, parseInt_dump, exceptMap_ok]

/-- A dumped `Sequence[float] | None` field round-trips. -/
theorem parseOptAxis_dump (o : Option (List ℚ)) :
    parseOpt parseQList (dumpOptAxis o) = .ok o := by
  cases o with
  | none => rfl
  | some l => simp [dumpOptAxis, parseOpt, parseQList_dump, exceptMap_ok]

/-- A dumped `Fig` document round-trips (no `Fig` field is constrained). -/
theorem parseFig_dump (f : Fig) : parseFig (dumpFig f) = .ok f := by
  simp [parseFig, dumpFig, figKeys, fieldD, lookupKV, parseBool, parseStr,
    parseInt_dump, parseOptQ_dump, parseOptInt_dump, parseOptAxis_dump,
    exceptBind_ok]

/-- A dumped `ColorScheme` document round-trips provided the scheme passes
its own validation. -/
theorem parseColorScheme_dump (cs : ColorScheme)
    (h : ColorScheme.validate cs.colors cs.positions = .ok cs) :
    parseColorScheme (dumpColorScheme cs) = .ok cs := by
  simp [parseColorScheme, dumpColorScheme, colorSchemeKeys, fieldD, lookupKV,
    parseStrList_dump, parseQList_dump, exceptBind_ok]
  exact h

/-- C5: for every valid `axes` value, JSON-encoding the model as `savefig`'s
json branch does (`model_dump`, here `dumpAxes`, the document written in
`c2_savefig_bare_default`'s second conjunct) and validating the document
back into the model yields the identical value: the encode/decode round
trip is the identity on valid `axes` values. -/
theorem c5_roundtrip (a : axes) (h : ValidAxes a) :
    parseAxes (dumpAxes a) = .ok a := by
  have hcs := parseColorScheme_dump a.color_scheme h
  obtain ⟨cs, ty, dt, op⟩ := a
  cases ty with
  | none =>
      cases dt <;>
        simp [parseAxes, dumpAxes, axesKeys, fieldD, lookupKV, hcs,
          parseFig_dump, exceptBind_ok, exceptMap_ok, parseOpt,
          parseGraphTypes, parseStr]
  | some g =>
      cases g
      cases dt <;>
        simp [parseAxes, dumpAxes, axesKeys, fieldD, lookupKV, hcs,
          parseFig_dump, exceptBind_ok, exceptMap_ok, parseOpt,
          parseGraphTypes, parseStr]

/-- An `axes` carrying a three-color, three-position scheme — valid in the
program, since the positions length constraint is only a minimum of 2. -/
def axes3pos : axes :=
  { color_scheme := ⟨["red", "green", "blue"], [0, 1, 1]⟩ }

/-- C5 witness: the round trip is the identity on a fresh `axes()` and on
an `axes` whose color scheme carries three positions. -/
theorem c5_roundtrip_witness :
    parseAxes (dumpAxes axesDefault) = .ok axesDefault ∧
    parseAxes (dumpAxes axes3pos) = .ok axes3pos :=
  ⟨c5_roundtrip axesDefault rfl, c5_roundtrip axes3pos rfl⟩
